import Mathlib

/-!
Shallow embedding of the `ScoringEngine` class of `ai_scoring.py` from the
github-portfolio-analyzer-ai repository, together with proofs of the spec's
claims about it.

Modelling choices:
* Python dict fields accessed via `.get(key, default)` are modelled as
  `Option` fields; the scoring functions apply the same defaults (`getD`)
  the Python code applies at each access site.
* Python floats are modelled as rationals (`ℚ`).  The weight constants
  0.30 / 0.40 / 0.30 and the factor 0.7 are exact rationals.
* Python's `round(x, 2)` is modelled as `round2` below, rounding `x * 100`
  to the nearest integer (half away from zero goes up, via Mathlib's
  `round`) and dividing back by 100.  Python's float `round` resolves exact
  half-way ties to even instead; none of the properties proved here depend
  on the direction of a tie.
* Python's floor division `//` on integers is `Int.fdiv`.
-/

/-- A repository record as consumed by the scoring engine.  Every field the
Python code reads with `repo.get(...)` is optional. -/
structure Repo where
  readme_length : Option ℤ
  description : Option String
  language : Option String
  stars : Option ℤ
  forks : Option ℤ
deriving DecidableEq, Repr

/-- The `commit_activity` record: `consistency_score` and `total_commits`,
both read with a default of 0. -/
structure CommitActivity where
  consistency_score : ℚ
  total_commits : ℤ
deriving DecidableEq, Repr

/-- The `profile_data` dictionary restricted to the keys the scoring engine
reads: `repositories` (default `[]`) and `commit_activity` (default `{}`,
modelled as `none`). -/
structure ProfileData where
  repositories : List Repo
  commit_activity : Option CommitActivity
deriving DecidableEq, Repr

/-- The output of `calculate_score`: the four rounded numbers.  The nested
`score_breakdown` dictionary only repeats the three rounded sub-scores
together with the fixed weights, so it is not modelled separately. -/
structure ScoreBreakdown where
  total_score : ℚ
  documentation_score : ℚ
  technical_depth_score : ℚ
  activity_score : ℚ
deriving DecidableEq, Repr

/-- `WEIGHTS["documentation"]`. -/
def WEIGHTS_documentation : ℚ := 0.30

/-- `WEIGHTS["technical_depth"]`. -/
def WEIGHTS_technical_depth : ℚ := 0.40

/-- `WEIGHTS["activity"]`. -/
def WEIGHTS_activity : ℚ := 0.30

/-- Python's `round(x, 2)`: round `x` to two decimal places. -/
def round2 (x : ℚ) : ℚ := (round (x * 100) : ℚ) / 100

/-- Python truthiness of `repo.get("description")`: present and non-empty. -/
def hasDescription (r : Repo) : Bool := r.description.getD "" ≠ ""

/-- The per-repository value accumulated by `_score_documentation`:
README-length tier, +10 description bonus, clamped at 100. -/
def docRepoScore (r : Repo) : ℤ :=
  let readme_length := r.readme_length.getD 0
  let count_score : ℤ :=
    if readme_length > 1000 then 100
    else if readme_length > 500 then 75
    else if readme_length > 100 then 50
    else 25
  let count_score := if hasDescription r then count_score + 10 else count_score
  min 100 count_score

/-- `_score_documentation`: mean of the per-repository values, 0 when there
are no repositories. -/
def score_documentation (profile_data : ProfileData) : ℚ :=
  let repos := profile_data.repositories
  let score : ℤ := (repos.map docRepoScore).sum
  let count : ℕ := repos.length
  if count > 0 then (score : ℚ) / (count : ℚ) else 0

/-- The `language` value a repository contributes to the language set:
`none` when absent or empty (Python truthiness of `repo.get("language")`). -/
def langOf (r : Repo) : Option String :=
  match r.language with
  | none => none
  | some s => if s = "" then none else some s

/-- The star/fork tier points one repository adds to `complexity_score`. -/
def complexityPts (r : Repo) : ℤ :=
  let stars := r.stars.getD 0
  let forks := r.forks.getD 0
  (if stars > 1000 then 30
   else if stars > 100 then 20
   else if stars > 10 then 10
   else 5) +
  (if forks > 100 then 20
   else if forks > 10 then 10
   else 0)

/-- The language-diversity component of `_score_technical_depth`:
20 points per distinct non-empty language, capped at 100. -/
def languageScore (profile_data : ProfileData) : ℤ :=
  min 100 ((profile_data.repositories.filterMap langOf).toFinset.card * 20)

/-- The complexity component of `_score_technical_depth`: star/fork tier
points summed over all repositories, floor-divided by the repository count
(divisor floored at 1), capped at 100. -/
def complexityScore (profile_data : ProfileData) : ℤ :=
  let repos := profile_data.repositories
  min 100 (Int.fdiv ((repos.map complexityPts).sum) (max 1 (repos.length : ℤ)))

/-- `_score_technical_depth`: `language_score * 0.4 + complexity_score * 0.6`. -/
def score_technical_depth (profile_data : ProfileData) : ℚ :=
  (languageScore profile_data : ℚ) * 0.4 + (complexityScore profile_data : ℚ) * 0.6

/-- The commit-frequency bonus tier of `_score_activity`. -/
def commitBonus (total_commits : ℤ) : ℤ :=
  if total_commits > 1000 then 40
  else if total_commits > 500 then 30
  else if total_commits > 100 then 20
  else 10

/-- `_score_activity`: `min(100, consistency * 0.7 + commit_bonus)`, with
both `commit_activity` fields defaulting to 0 when the record is absent. -/
def score_activity (profile_data : ProfileData) : ℚ :=
  let commit_activity := profile_data.commit_activity.getD ⟨0, 0⟩
  let consistency := commit_activity.consistency_score
  let total_commits := commit_activity.total_commits
  min 100 (consistency * 0.7 + (commitBonus total_commits : ℚ))

/-- `calculate_score`: the three sub-scores combined by the fixed weights,
all four reported numbers rounded to two decimal places. -/
def calculate_score (profile_data : ProfileData) : ScoreBreakdown :=
  let doc_score := score_documentation profile_data
  let tech_score := score_technical_depth profile_data
  let activity_score := score_activity profile_data
  let total_score :=
    doc_score * WEIGHTS_documentation +
    tech_score * WEIGHTS_technical_depth +
    activity_score * WEIGHTS_activity
  { total_score := round2 total_score
    documentation_score := round2 doc_score
    technical_depth_score := round2 tech_score
    activity_score := round2 activity_score }

/-- Structural validity of a repository record, as assumed by the spec:
non-negative `readme_length`, `stars` and `forks`. -/
def ValidRepo (r : Repo) : Prop :=
  0 ≤ r.readme_length.getD 0 ∧ 0 ≤ r.stars.getD 0 ∧ 0 ≤ r.forks.getD 0

/-- Structural validity of an optional `commit_activity` record: when
present, `consistency_score ∈ [0,100]` and `total_commits ≥ 0`. -/
def ValidCommitActivity : Option CommitActivity → Prop
  | none => True
  | some ca =>
      0 ≤ ca.consistency_score ∧ ca.consistency_score ≤ 100 ∧
      0 ≤ ca.total_commits

/-- Structural validity of a profile: every repository valid, and the
optional `commit_activity` record valid. -/
def ValidProfile (p : ProfileData) : Prop :=
  (∀ r ∈ p.repositories, ValidRepo r) ∧ ValidCommitActivity p.commit_activity

instance (r : Repo) : Decidable (ValidRepo r) :=
  inferInstanceAs (Decidable (_ ∧ _ ∧ _))

instance : (o : Option CommitActivity) → Decidable (ValidCommitActivity o)
  | none => .isTrue trivial
  | some _ => inferInstanceAs (Decidable (_ ∧ _ ∧ _))

instance (p : ProfileData) : Decidable (ValidProfile p) :=
  inferInstanceAs (Decidable (_ ∧ _))

/-! ### Helper lemmas -/

theorem round2_mono {x y : ℚ} (h : x ≤ y) : round2 x ≤ round2 y := by
  unfold round2
  have hr : round (x * 100) ≤ round (y * 100) := by
    rw [round_eq, round_eq]
    exact Int.floor_le_floor (by linarith)
  have h100 : (0 : ℚ) < 100 := by norm_num
  exact (div_le_div_iff_of_pos_right h100).mpr (by exact_mod_cast hr)

theorem round2_intCast (n : ℤ) : round2 (n : ℚ) = n := by
  unfold round2
  rw [show ((n : ℚ) * 100) = ((n * 100 : ℤ) : ℚ) by push_cast; ring, round_intCast]
  push_cast
  field_simp

theorem round2_zero : round2 0 = 0 := by
  have h := round2_intCast 0
  simpa using h

theorem round2_hundred : round2 100 = 100 := by
  have h := round2_intCast 100
  simpa using h

theorem round2_mem_Icc {x : ℚ} (h0 : 0 ≤ x) (h1 : x ≤ 100) :
    0 ≤ round2 x ∧ round2 x ≤ 100 := by
  constructor
  · have h := round2_mono h0
    rwa [round2_zero] at h
  · have h := round2_mono h1
    rwa [round2_hundred] at h

theorem docRepoScore_mem (r : Repo) : 25 ≤ docRepoScore r ∧ docRepoScore r ≤ 100 := by
  simp only [docRepoScore]
  split_ifs <;> omega

theorem docSum_bounds (l : List Repo) :
    25 * (l.length : ℤ) ≤ (l.map docRepoScore).sum ∧
    (l.map docRepoScore).sum ≤ 100 * (l.length : ℤ) := by
  induction l with
  | nil => simp
  | cons r t ih =>
      have hr := docRepoScore_mem r
      simp only [List.map_cons, List.sum_cons, List.length_cons]
      push_cast
      omega

theorem complexityPts_mem (r : Repo) :
    5 ≤ complexityPts r ∧ complexityPts r ≤ 50 := by
  simp only [complexityPts]
  split_ifs <;> omega

theorem complexitySum_nonneg (l : List Repo) : 0 ≤ (l.map complexityPts).sum := by
  induction l with
  | nil => simp
  | cons r t ih =>
      have hr := complexityPts_mem r
      simp only [List.map_cons, List.sum_cons]
      omega

theorem commitBonus_mem (t : ℤ) : 10 ≤ commitBonus t ∧ commitBonus t ≤ 40 := by
  simp only [commitBonus]
  split_ifs <;> omega

theorem score_documentation_mem (p : ProfileData) :
    0 ≤ score_documentation p ∧ score_documentation p ≤ 100 := by
  simp only [score_documentation]
  by_cases h : p.repositories.length > 0
  · have hb := docSum_bounds p.repositories
    have hc : (0 : ℚ) < (p.repositories.length : ℚ) := by exact_mod_cast h
    have h0 : (0 : ℤ) ≤ (p.repositories.map docRepoScore).sum := by omega
    rw [if_pos h]
    constructor
    · exact div_nonneg (by exact_mod_cast h0) hc.le
    · rw [div_le_iff₀ hc]
      have : ((p.repositories.map docRepoScore).sum : ℚ) ≤
          100 * (p.repositories.length : ℚ) := by exact_mod_cast hb.2
      linarith
  · rw [if_neg h]
    norm_num

theorem score_documentation_ge (p : ProfileData) (h : p.repositories ≠ []) :
    25 ≤ score_documentation p := by
  have hlen : p.repositories.length > 0 := List.length_pos.mpr h
  have hb := docSum_bounds p.repositories
  have hc : (0 : ℚ) < (p.repositories.length : ℚ) := by exact_mod_cast hlen
  simp only [score_documentation]
  rw [if_pos hlen, le_div_iff₀ hc]
  have : 25 * ((p.repositories.length : ℤ) : ℚ) ≤
      ((p.repositories.map docRepoScore).sum : ℚ) := by exact_mod_cast hb.1
  push_cast at this ⊢
  linarith

theorem languageScore_mem (p : ProfileData) :
    0 ≤ languageScore p ∧ languageScore p ≤ 100 := by
  simp only [languageScore]
  omega

theorem complexityScore_mem (p : ProfileData) :
    0 ≤ complexityScore p ∧ complexityScore p ≤ 100 := by
  simp only [complexityScore]
  have hs := complexitySum_nonneg p.repositories
  have hd : (0 : ℤ) ≤ max 1 (p.repositories.length : ℤ) := by omega
  have hq := Int.fdiv_nonneg hs hd
  omega

theorem score_technical_depth_mem (p : ProfileData) :
    0 ≤ score_technical_depth p ∧ score_technical_depth p ≤ 100 := by
  have hl := languageScore_mem p
  have hc := complexityScore_mem p
  have hl0 : (0 : ℚ) ≤ (languageScore p : ℚ) := by exact_mod_cast hl.1
  have hl1 : (languageScore p : ℚ) ≤ 100 := by exact_mod_cast hl.2
  have hc0 : (0 : ℚ) ≤ (complexityScore p : ℚ) := by exact_mod_cast hc.1
  have hc1 : (complexityScore p : ℚ) ≤ 100 := by exact_mod_cast hc.2
  simp only [score_technical_depth]
  norm_num
  constructor <;> linarith

theorem score_activity_mem (p : ProfileData)
    (h : ValidCommitActivity p.commit_activity) :
    10 ≤ score_activity p ∧ score_activity p ≤ 100 := by
  simp only [score_activity]
  rcases hca : p.commit_activity with _ | ca
  · simp only [Option.getD_none]
    norm_num [commitBonus]
  · rw [hca] at h
    obtain ⟨h0, h1, h2⟩ := h
    simp only [Option.getD_some]
    have hb := commitBonus_mem ca.total_commits
    have hb0 : (10 : ℚ) ≤ (commitBonus ca.total_commits : ℚ) := by
      exact_mod_cast hb.1
    exact ⟨le_min (by norm_num) (by linarith), min_le_left _ _⟩

/-- C1: on every structurally valid `profile_data`, all four numbers returned
by `calculate_score` (`total_score` and the three sub-scores) lie in the
closed interval `[0, 100]`. -/
theorem claim_C1 (p : ProfileData) (h : ValidProfile p) :
    (0 ≤ (calculate_score p).total_score ∧ (calculate_score p).total_score ≤ 100) ∧
    (0 ≤ (calculate_score p).documentation_score ∧
      (calculate_score p).documentation_score ≤ 100) ∧
    (0 ≤ (calculate_score p).technical_depth_score ∧
      (calculate_score p).technical_depth_score ≤ 100) ∧
    (0 ≤ (calculate_score p).activity_score ∧
      (calculate_score p).activity_score ≤ 100) := by
  obtain ⟨-, hca⟩ := h
  have hd := score_documentation_mem p
  have ht := score_technical_depth_mem p
  have ha := score_activity_mem p hca
  have ha0 : 0 ≤ score_activity p := le_trans (by norm_num) ha.1
  have hw1 : WEIGHTS_documentation = 3 / 10 := by norm_num [WEIGHTS_documentation]
  have hw2 : WEIGHTS_technical_depth = 4 / 10 := by
    norm_num [WEIGHTS_technical_depth]
  have hw3 : WEIGHTS_activity = 3 / 10 := by norm_num [WEIGHTS_activity]
  simp only [calculate_score, hw1, hw2, hw3]
  refine ⟨round2_mem_Icc (by linarith [hd.1, ht.1]) (by linarith [hd.2, ht.2, ha.2]),
    round2_mem_Icc hd.1 hd.2, round2_mem_Icc ht.1 ht.2, round2_mem_Icc ha0 ha.2⟩

/-- The single-repository profile used by the spec's worked example. -/
def exampleRepo : Repo :=
  { readme_length := some 1500, description := some "A fast CLI tool",
    language := some "Go", stars := some 5000, forks := some 50 }

/-- The worked-example profile: one repository, no commit-activity record. -/
def exampleProfile : ProfileData :=
  { repositories := [exampleRepo], commit_activity := none }

/-- Witness for C1 at the worked-example profile. -/
theorem claim_C1_witness :
    ValidProfile exampleProfile ∧
    ((0 ≤ (calculate_score exampleProfile).total_score ∧
        (calculate_score exampleProfile).total_score ≤ 100) ∧
      (0 ≤ (calculate_score exampleProfile).documentation_score ∧
        (calculate_score exampleProfile).documentation_score ≤ 100) ∧
      (0 ≤ (calculate_score exampleProfile).technical_depth_score ∧
        (calculate_score exampleProfile).technical_depth_score ≤ 100) ∧
      (0 ≤ (calculate_score exampleProfile).activity_score ∧
        (calculate_score exampleProfile).activity_score ≤ 100)) :=
  ⟨by decide, claim_C1 exampleProfile (by decide)⟩

/-- C2: `total_score` is the two-decimal rounding of
`0.30 * d + 0.40 * t + 0.30 * a` where `d`, `t`, `a` are the unrounded
sub-scores; rounding happens once, at the output boundary. -/
theorem claim_C2 (p : ProfileData) :
    (calculate_score p).total_score =
      round2 (0.30 * score_documentation p + 0.40 * score_technical_depth p +
        0.30 * score_activity p) := by
  simp only [calculate_score]
  congr 1
  norm_num [WEIGHTS_documentation, WEIGHTS_technical_depth, WEIGHTS_activity]
  ring

/-- C3: the per-repository documentation value is the README-length tier
base (100/75/50/25) plus a 10-point bonus for a non-empty description,
clamped at 100; the score is the mean of these values, and 0 with zero
repositories. -/
theorem claim_C3 :
    (∀ r : Repo, docRepoScore r =
      min 100
        ((if r.readme_length.getD 0 > 1000 then (100 : ℤ)
          else if r.readme_length.getD 0 > 500 then 75
          else if r.readme_length.getD 0 > 100 then 50
          else 25) +
          (if r.description.getD "" ≠ "" then 10 else 0))) ∧
    (∀ p : ProfileData, p.repositories = [] → score_documentation p = 0) ∧
    (∀ p : ProfileData, p.repositories ≠ [] →
      score_documentation p =
        ((p.repositories.map docRepoScore).sum : ℚ) /
          (p.repositories.length : ℚ)) := by
  refine ⟨fun r => ?_, fun p h => ?_, fun p h => ?_⟩
  · simp only [docRepoScore, hasDescription]
    split_ifs <;> simp_all
  · simp [score_documentation, h]
  · have hlen : p.repositories.length > 0 := List.length_pos.mpr h
    simp only [score_documentation]
    rw [if_pos hlen]

/-- Witness for C3 at the worked-example repository and the empty profile. -/
theorem claim_C3_witness :
    docRepoScore exampleRepo =
      min 100
        ((if exampleRepo.readme_length.getD 0 > 1000 then (100 : ℤ)
          else if exampleRepo.readme_length.getD 0 > 500 then 75
          else if exampleRepo.readme_length.getD 0 > 100 then 50
          else 25) +
          (if exampleRepo.description.getD "" ≠ "" then 10 else 0)) ∧
    score_documentation { repositories := [], commit_activity := none } = 0 ∧
    score_documentation exampleProfile =
      ((exampleProfile.repositories.map docRepoScore).sum : ℚ) /
        (exampleProfile.repositories.length : ℚ) :=
  ⟨claim_C3.1 exampleRepo,
    claim_C3.2.1 { repositories := [], commit_activity := none } rfl,
    claim_C3.2.2 exampleProfile (by decide)⟩

/-- C10: with at least one repository the reported `documentation_score` is
at least 25 (and hence never strictly between 0 and 25); it is 0 only in the
zero-repository case. -/
theorem claim_C10 (p : ProfileData) (h : p.repositories ≠ []) :
    25 ≤ (calculate_score p).documentation_score ∧
    25 ≤ score_documentation p := by
  have hge := score_documentation_ge p h
  refine ⟨?_, hge⟩
  have := round2_mono hge
  have h25 : round2 25 = 25 := by
    have h := round2_intCast 25
    simpa using h
  rw [h25] at this
  simpa [calculate_score] using this

/-- Witness for C10 at the worked-example profile. -/
theorem claim_C10_witness :
    25 ≤ (calculate_score exampleProfile).documentation_score ∧
    25 ≤ score_documentation exampleProfile :=
  claim_C10 exampleProfile (by decide)

/-- C8: `calculate_score` is a pure function of its input: two invocations
on the same `profile_data` structure give identical `ScoreBreakdown`
values (the embedding carries no mutable state; the only constants are the
fixed weights). -/
theorem claim_C8 (p q : ProfileData) (h : p = q) :
    calculate_score p = calculate_score q := by rw [h]

/-- Witness for C8 at the worked-example profile. -/
theorem claim_C8_witness :
    calculate_score exampleProfile = calculate_score exampleProfile :=
  claim_C8 exampleProfile exampleProfile rfl

theorem fdiv_natCast_eq_floor (a : ℤ) (n : ℕ) :
    Int.fdiv a (n : ℤ) = ⌊(a : ℚ) / (n : ℚ)⌋ := by
  rw [Int.fdiv_eq_ediv _ (by exact_mod_cast Nat.zero_le n),
    Rat.floor_intCast_div_natCast]

/-- C4: the technical-depth score is `0.4 * language_score +
0.6 * complexity_score`, with `language_score = min(100, 20 * #distinct
non-empty languages)` and `complexity_score = min(100, S // max(1, n))`
where `//` is integer floor division (the quotient equals the floor of the
rational quotient), `S` the summed star/fork tier points and `n` the
repository count. -/
theorem claim_C4 (p : ProfileData) :
    score_technical_depth p =
      0.4 * (languageScore p : ℚ) + 0.6 * (complexityScore p : ℚ) ∧
    languageScore p =
      min 100 (20 * ((p.repositories.filterMap langOf).toFinset.card : ℤ)) ∧
    complexityScore p =
      min 100 (Int.fdiv ((p.repositories.map complexityPts).sum)
        (max 1 (p.repositories.length : ℤ))) ∧
    Int.fdiv ((p.repositories.map complexityPts).sum)
        (max 1 (p.repositories.length : ℤ)) =
      ⌊(((p.repositories.map complexityPts).sum : ℤ) : ℚ) /
        ((max 1 (p.repositories.length : ℤ) : ℤ) : ℚ)⌋ := by
  refine ⟨by rw [score_technical_depth]; ring, ?_, rfl, ?_⟩
  · rw [languageScore, mul_comm]
  · have h : ((max 1 p.repositories.length : ℕ) : ℤ) =
        max 1 (p.repositories.length : ℤ) := by
      push_cast
      rfl
    rw [← h, fdiv_natCast_eq_floor]
    norm_cast

/-- C5: an absent or all-zero `commit_activity` yields exactly 10.0; the
commit-volume bonus tiers are 40/30/20/10 with a floor of 10 even at zero
commits, and the activity score is `min(100, consistency * 0.7 + bonus)`. -/
theorem claim_C5 :
    (∀ p : ProfileData,
      (p.commit_activity = none ∨
        p.commit_activity = some { consistency_score := 0, total_commits := 0 }) →
      score_activity p = 10) ∧
    (∀ t : ℤ, commitBonus t =
      if t > 1000 then 40 else if t > 500 then 30 else if t > 100 then 20
      else 10) ∧
    (∀ t : ℤ, 10 ≤ commitBonus t) ∧
    (∀ p : ProfileData,
      score_activity p =
        min 100
          ((p.commit_activity.getD
              { consistency_score := 0, total_commits := 0 }).consistency_score
              * 0.7 +
            ((commitBonus (p.commit_activity.getD
              { consistency_score := 0,
                total_commits := 0 }).total_commits : ℤ) : ℚ))) := by
  refine ⟨fun p h => ?_, fun t => rfl, fun t => (commitBonus_mem t).1,
    fun p => rfl⟩
  rcases h with h | h <;>
    simp only [score_activity, h, Option.getD_none, Option.getD_some] <;>
    norm_num [commitBonus]

/-- Witness for C5 at a profile with no `commit_activity` record. -/
theorem claim_C5_witness :
    score_activity { repositories := [], commit_activity := none } = 10 :=
  claim_C5.1 _ (Or.inl rfl)

/-- C6: on the worked example (one repository, `readme_length = 1500`,
non-empty description, language `"Go"`, 5000 stars, 50 forks) the engine
reports `documentation_score = 100` and `technical_depth_score = 32.0`. -/
theorem claim_C6 :
    (calculate_score exampleProfile).documentation_score = 100 ∧
    (calculate_score exampleProfile).technical_depth_score = 32 := by
  have hdoc : score_documentation exampleProfile = 100 := by
    have hs : (exampleProfile.repositories.map docRepoScore).sum = 100 := by
      decide
    have hl : exampleProfile.repositories.length = 1 := by decide
    rw [score_documentation, hs, hl]
    norm_num
  have htech : score_technical_depth exampleProfile = 32 := by
    have hls : languageScore exampleProfile = 20 := by decide
    have hcs : complexityScore exampleProfile = 40 := by decide
    rw [score_technical_depth, hls, hcs]
    norm_num
  constructor
  · show round2 (score_documentation exampleProfile) = 100
    rw [hdoc]
    exact round2_hundred
  · show round2 (score_technical_depth exampleProfile) = 32
    rw [htech]
    have h := round2_intCast 32
    simpa using h

/-- C7: `calculate_score` is total on structurally valid inputs: absent
collections and fields behave as their zero/empty defaults — an empty
repository list short-circuits the documentation mean to 0 and the
complexity divisor is floored at 1 (giving 0), an absent `commit_activity`
behaves as the all-zero record, and per-repository `None` fields behave as
0 / the empty string. -/
theorem claim_C7 :
    (∀ ca, score_documentation { repositories := [], commit_activity := ca } = 0) ∧
    (∀ ca, score_technical_depth { repositories := [], commit_activity := ca } = 0) ∧
    (∀ p : ProfileData, p.commit_activity = none →
      score_activity p =
        score_activity
          { repositories := p.repositories,
            commit_activity :=
              some { consistency_score := 0, total_commits := 0 } }) ∧
    (∀ r : Repo,
      docRepoScore r =
        docRepoScore
          { readme_length := some (r.readme_length.getD 0),
            description := some (r.description.getD ""),
            language := r.language, stars := r.stars, forks := r.forks } ∧
      complexityPts r =
        complexityPts
          { readme_length := r.readme_length, description := r.description,
            language := r.language, stars := some (r.stars.getD 0),
            forks := some (r.forks.getD 0) }) := by
  refine ⟨fun ca => by rw [score_documentation]; norm_num,
    fun ca => ?_, fun p h => ?_, fun r => ⟨rfl, rfl⟩⟩
  · have h1 : languageScore { repositories := [], commit_activity := ca } = 0 := by
      simp [languageScore]
    have h2 : complexityScore { repositories := [], commit_activity := ca } = 0 := by
      simp [complexityScore, Int.zero_fdiv]
    rw [score_technical_depth, h1, h2]
    norm_num
  · simp only [score_activity, h, Option.getD_none, Option.getD_some]

/-- Witness for C7 at the empty profile and the worked example. -/
theorem claim_C7_witness :
    score_documentation { repositories := [], commit_activity := none } = 0 ∧
    score_technical_depth { repositories := [], commit_activity := none } = 0 ∧
    score_activity exampleProfile =
      score_activity
        { repositories := exampleProfile.repositories,
          commit_activity :=
            some { consistency_score := 0, total_commits := 0 } } :=
  ⟨claim_C7.1 none, claim_C7.2.1 none, claim_C7.2.2.1 exampleProfile rfl⟩

/-- C9: scoring is insensitive to the order of the repository list: any
permutation of `repositories` (with the same `commit_activity`) produces
the same `ScoreBreakdown`. -/
theorem claim_C9 (p q : ProfileData)
    (hperm : p.repositories.Perm q.repositories)
    (hca : p.commit_activity = q.commit_activity) :
    calculate_score p = calculate_score q := by
  have hlen := hperm.length_eq
  have hdoc : score_documentation p = score_documentation q := by
    simp only [score_documentation, (hperm.map docRepoScore).sum_eq, hlen]
  have hlang : languageScore p = languageScore q := by
    simp only [languageScore,
      List.toFinset_eq_of_perm _ _ (hperm.filterMap langOf)]
  have hcomp : complexityScore p = complexityScore q := by
    simp only [complexityScore, (hperm.map complexityPts).sum_eq, hlen]
  have htech : score_technical_depth p = score_technical_depth q := by
    simp only [score_technical_depth, hlang, hcomp]
  have hact : score_activity p = score_activity q := by
    simp only [score_activity, hca]
  simp only [calculate_score, hdoc, htech, hact]

/-- A second repository, used to exhibit a non-trivial permutation. -/
def secondRepo : Repo :=
  { readme_length := some 200, description := none,
    language := some "Python", stars := some 12, forks := some 3 }

/-- Two-repository profile. -/
def permProfileA : ProfileData :=
  { repositories := [exampleRepo, secondRepo],
    commit_activity := some { consistency_score := 50, total_commits := 600 } }

/-- The same profile with the repositories swapped. -/
def permProfileB : ProfileData :=
  { repositories := [secondRepo, exampleRepo],
    commit_activity := some { consistency_score := 50, total_commits := 600 } }

/-- Witness for C9 at a concrete transposition of two repositories. -/
theorem claim_C9_witness :
    calculate_score permProfileA = calculate_score permProfileB :=
  claim_C9 permProfileA permProfileB (List.Perm.swap secondRepo exampleRepo []) rfl
